import Mathlib

/-!
Shallow embedding of the indicator-computation core of the
`vn-stock-scanner` repository.

The repository carries two variants of the fetch/indicator script:
* `src/scripts/fetch_data.py`            — embedded below in namespace `V1`;
* `src/vn-stock-scanner/scripts/fetch_data.py` — embedded in namespace `V2`.

Numeric values are modelled as exact rationals (`ℚ`); pandas "NaN" cells
are modelled as `Option ℚ` with `none` for a missing value.  Python's
`round(x, d)` (banker's rounding, half to even) is modelled exactly on ℚ,
and `int(x)` as truncation toward zero.
-/

/-- Python `round` to an integer: nearest, ties to even (banker's rounding). -/
def pyRoundInt (q : ℚ) : ℤ :=
  if q - ⌊q⌋ < 1/2 then ⌊q⌋
  else if (1/2 : ℚ) < q - ⌊q⌋ then ⌊q⌋ + 1
  else if ⌊q⌋ % 2 = 0 then ⌊q⌋ else ⌊q⌋ + 1

/-- Python `round(q, d)`: round to `d` decimal places, ties to even. -/
def roundTo (d : ℕ) (q : ℚ) : ℚ := (pyRoundInt (q * 10 ^ d) : ℚ) / 10 ^ d

/-- Python `int(q)`: truncation toward zero. -/
def pyInt (q : ℚ) : ℤ := if q < 0 then ⌈q⌉ else ⌊q⌋

/-- The pairwise percentage-spread helper.  The two scripts define it three
times with identical bodies (`diff_percent` inside `calculate_convergence`
of `src/scripts/fetch_data.py`, `pct_diff` inside `calculate_convergence`
of `src/vn-stock-scanner/scripts/fetch_data.py`, and `va_diff` inside both
versions of `process_stock`):
`0` if both arguments are `0`; otherwise `abs(a-b)/avg*100` if
`avg = (a+b)/2` is nonzero, else `0`. -/
def pct_diff (a b : ℚ) : ℚ :=
  if a = 0 ∧ b = 0 then 0
  else
    let avg := (a + b) / 2
    if avg ≠ 0 then |a - b| / avg * 100 else 0

/-- The spec's own pairwise-spread formula, written from the claim's words:
"0 if both are 0 and otherwise `|a-b| / ((a+b)/2) * 100`"
(in ℚ, division by zero yields 0). -/
def specPairSpread (a b : ℚ) : ℚ :=
  if a = 0 ∧ b = 0 then 0 else |a - b| / ((a + b) / 2) * 100

namespace V1

/-- `max_deviation` from `calculate_convergence` in `src/scripts/fetch_data.py`:
maximum percentage deviation of the three values from their three-way mean,
`0` when that mean is `0`. -/
def max_deviation (a b c : ℚ) : ℚ :=
  let avg := (a + b + c) / 3
  if avg = 0 then 0
  else max (|a - avg| / avg * 100) (max (|b - avg| / avg * 100) (|c - avg| / avg * 100))

/-- Result record of `calculate_convergence` (`src/scripts/fetch_data.py`). -/
structure Convergence where
  ma5_20 : ℚ
  ma20_60 : ℚ
  ma5_60 : ℚ
  maConverge : ℚ
  deriving Repr, DecidableEq

/-- `calculate_convergence` of `src/scripts/fetch_data.py`: pairwise spreads
rounded to 2 decimals, and aggregate `maConverge = round(max_deviation, 2)`. -/
def calculate_convergence (ma5 ma20 ma60 : ℚ) : Convergence :=
  { ma5_20 := roundTo 2 (pct_diff ma5 ma20)
    ma20_60 := roundTo 2 (pct_diff ma20 ma60)
    ma5_60 := roundTo 2 (pct_diff ma5 ma60)
    maConverge := roundTo 2 (max_deviation ma5 ma20 ma60) }

/-- The inline volume-convergence aggregate of `process_stock` in
`src/scripts/fetch_data.py`:
`max(va_diff(va5,va20), va_diff(va20,va60), va_diff(va5,va60)) / 3`. -/
def va_converge (va5 va20 va60 : ℚ) : ℚ :=
  max (pct_diff va5 va20) (max (pct_diff va20 va60) (pct_diff va5 va60)) / 3

end V1

namespace V2

/-- Result record of `calculate_convergence`
(`src/vn-stock-scanner/scripts/fetch_data.py`). -/
structure Convergence where
  ma5_20 : ℚ
  ma20_60 : ℚ
  ma5_60 : ℚ
  maConverge : ℚ
  deriving Repr, DecidableEq

/-- `calculate_convergence` of `src/vn-stock-scanner/scripts/fetch_data.py`:
`maConverge` is the arithmetic mean of the three unrounded pairwise spreads,
then rounded to 2 decimals. -/
def calculate_convergence (ma5 ma20 ma60 : ℚ) : Convergence :=
  let ma5_20 := pct_diff ma5 ma20
  let ma20_60 := pct_diff ma20 ma60
  let ma5_60 := pct_diff ma5 ma60
  let ma_converge := (ma5_20 + ma20_60 + ma5_60) / 3
  { ma5_20 := roundTo 2 ma5_20
    ma20_60 := roundTo 2 ma20_60
    ma5_60 := roundTo 2 ma5_60
    maConverge := roundTo 2 ma_converge }

/-- The inline volume-convergence aggregate of `process_stock` in
`src/vn-stock-scanner/scripts/fetch_data.py`:
`(va_diff(va5,va20) + va_diff(va20,va60)) / 2` (the `va5`/`va60` pair
is not used). -/
def va_converge (va5 va20 va60 : ℚ) : ℚ :=
  (pct_diff va5 va20 + pct_diff va20 va60) / 2

end V2

/-! ## The per-bar data model and the derived columns

Both scripts derive the same columns from a bar series (`V1` does it in
`calculate_true_range` / `calculate_admf` / `calculate_ma`, `V2` inline in
`fetch_stock_data`); the formulas are identical, so the column pipeline is
embedded once.  The external fetch layer guarantees complete bars
(spec §6), so raw OHLCV cells are plain rationals and only derived columns
carry the missing marker `none`. -/

/-- One trading bar.  `date` is an opaque tag (its string form is irrelevant
to the numeric core). -/
structure Bar where
  date : ℕ
  o : ℚ
  h : ℚ
  l : ℚ
  c : ℚ
  v : ℚ
  deriving Repr, DecidableEq, Inhabited

/-- pandas `Series.shift(1)` on a complete column: first cell becomes
missing, every other cell takes the previous value. -/
def shift1 : List ℚ → List (Option ℚ)
  | [] => []
  | x :: rest => none :: ((x :: rest).dropLast.map some)

/-- pandas `Series.rolling(window=w).mean()` on a complete column:
position `i` holds the mean of the trailing `w` cells once `w ≤ i+1`,
and is missing before the window is full. -/
def rollingMean (w : ℕ) (xs : List ℚ) : List (Option ℚ) :=
  (List.range xs.length).map fun i =>
    if w ≤ i + 1 then some (((xs.drop (i + 1 - w)).take w).sum / w) else none

/-- Worker for `rma`: carries the previous smoothed value. -/
def rmaAux (α : ℚ) : ℚ → List ℚ → List ℚ
  | _, [] => []
  | prev, x :: rest =>
    let y := (1 - α) * prev + α * x
    y :: rmaAux α y rest

/-- `rma(series, length)` of both scripts:
`series.ewm(alpha=1/length, adjust=False).mean()`, i.e. the recursion
`y[0] = x[0]`, `y[i] = (1-α)·y[i-1] + α·x[i]` with `α = 1/length`. -/
def rma (xs : List ℚ) (len : ℕ) : List ℚ :=
  let α := 1 / (len : ℚ)
  match xs with
  | [] => []
  | x :: rest => x :: rmaAux α x rest

/-- Row-wise maximum with pandas `skipna=True` semantics: a missing operand
is ignored; the result is missing only when both operands are. -/
def skipnaMax2 : Option ℚ → Option ℚ → Option ℚ
  | none, b => b
  | some a, none => some a
  | some a, some b => some (max a b)

/-- One row of the True-Range computation: `max` (skipping missing cells) of
`high-low`, `abs(high-close_prev)`, `abs(low-close_prev)`. -/
def trBar (b : Bar) (pc : Option ℚ) : Option ℚ :=
  skipnaMax2 (some (b.h - b.l))
    (skipnaMax2 ((pc.map fun p => |b.h - p|)) ((pc.map fun p => |b.l - p|)))

/-- `calculate_true_range` of `src/scripts/fetch_data.py` (the same
`pd.concat([...]).max(axis=1)` expression appears inline in
`fetch_stock_data` of the `V2` script). -/
def calculate_true_range (bars : List Bar) : List (Option ℚ) :=
  List.zipWith trBar bars (shift1 (bars.map Bar.c))

/-- pandas `Series.diff()` on a complete column: `x[i] - x[i-1]`, missing at
index 0. -/
def diffCol (xs : List ℚ) : List (Option ℚ) :=
  List.zipWith (fun x px => px.map fun p => x - p) xs (shift1 xs)

/-- The `df['c'].diff()` column. -/
def close_change (bars : List Bar) : List (Option ℚ) := diffCol (bars.map Bar.c)

/-- `tr.replace(0, np.nan)`: a zero cell becomes missing. -/
def replaceZeroNan (tr : List (Option ℚ)) : List (Option ℚ) :=
  tr.map fun o => o.bind fun t => if t = 0 then none else some t

/-- Cell-wise division with NaN propagation: missing if either operand is. -/
def optDiv : Option ℚ → Option ℚ → Option ℚ
  | some a, some b => some (a / b)
  | _, _ => none

/-- `Series.fillna(0)`. -/
def fillna0 (xs : List (Option ℚ)) : List ℚ := xs.map fun o => o.getD 0

/-- The `ad_ratio` column of both scripts:
`(df['c'].diff() / tr.replace(0, np.nan)).fillna(0)`.
(`V1`'s `calculate_admf` then applies the weight adjustment
`(1-ad_weight)*ad_ratio + sign(ad_ratio)*ad_weight`, which is the identity
at the call site's `ad_weight=0.0`.) -/
def ad_ratio (bars : List Bar) : List ℚ :=
  fillna0 (List.zipWith optDiv (close_change bars) (replaceZeroNan (calculate_true_range bars)))

/-- Typical price `hlc3 = (high + low + close) / 3`. -/
def hlc3 (b : Bar) : ℚ := (b.h + b.l + b.c) / 3

/-- `df['v'] * hlc3 * ad_ratio` (both scripts call it with
`price_enable=True` semantics). -/
def weighted_flow (bars : List Bar) : List ℚ :=
  List.zipWith (fun b r => b.v * hlc3 b * r) bars (ad_ratio bars)

/-- `ADMF_LENGTH = 14` in both scripts. -/
def ADMF_LENGTH : ℕ := 14

/-- `calculate_admf` of `src/scripts/fetch_data.py` at its call site
(`length=14, price_enable=True, ad_weight=0.0`); the `V2` script computes
the same `rma(v * hlc3 * ad_ratio, 14)` inline. -/
def calculate_admf (bars : List Bar) : List ℚ :=
  rma (weighted_flow bars) ADMF_LENGTH

/-- `np.sign` on an exact rational. -/
def npSign (x : ℚ) : ℚ := if x < 0 then -1 else if x = 0 then 0 else 1

/-- Maximum absolute value of a column (`series.abs().max()`).  The fold
starts at `0`; on a nonempty list this equals the pandas maximum because
every `|x|` is nonnegative (the callers below only read it on nonempty
windows). -/
def absMax (l : List ℚ) : ℚ := l.foldr (fun x m => max |x| m) 0

/-- `(signs.diff().abs() > 0).sum()`: the number of adjacent sign changes
(the diff at index 0 is missing, hence never counted). -/
def zeroCrosses (signs : List ℚ) : ℕ :=
  (List.zipWith (fun prev cur => if 0 < |cur - prev| then 1 else 0) signs (signs.drop 1)).sum

/-- The statistics dict returned by `calculate_admf_oscillation`
(`V1`); `calculate_admf_stats` of `V2` returns the same fields minus
`oscillation_score`. -/
structure AdmfStats where
  oscillation_score : ℚ
  zero_cross_count : ℕ
  avg_distance : ℚ
  max_distance : ℚ
  pct_near_zero : ℚ
  deriving Repr, DecidableEq

/-- `calculate_admf_oscillation(admf_series, period_days)` of
`src/scripts/fetch_data.py` (identically `calculate_admf_stats` of the `V2`
script, which merely omits `oscillation_score` from the dict):
take the trailing `period_days` cells, drop missing ones; absent if fewer
than half of `period_days` remain (`len(recent) < period_days * 0.5`, i.e.
`2·len < period_days`) or if the window's maximum absolute value is zero;
otherwise normalize by that maximum and return the statistics.
Both callers use `period_days ∈ {22, 44, 66, 88}`. -/
def calculate_admf_oscillation (admf : List (Option ℚ)) (period_days : ℕ) :
    Option AdmfStats :=
  let recent := (admf.drop (admf.length - period_days)).filterMap id
  if 2 * recent.length < period_days then none
  else
    let max_abs := absMax recent
    if max_abs = 0 then none
    else
      let normalized := recent.map fun x => x / max_abs
      let zero_crosses := zeroCrosses (recent.map npSign)
      let avg_distance := (normalized.map fun x => |x|).sum / normalized.length
      let near_zero := ((normalized.filter fun x => |x| < (0.2 : ℚ)).length : ℚ)
        / normalized.length * 100
      some
        { oscillation_score :=
            roundTo 2 (avg_distance * 100 - (zero_crosses : ℚ) * 2 - near_zero * (0.5 : ℚ))
          zero_cross_count := zero_crosses
          avg_distance := roundTo 2 (avg_distance * 100)
          max_distance := roundTo 2 (absMax normalized * 100)
          pct_near_zero := roundTo 1 near_zero }

/-! ## Record Builder -/

/-- The price moving-average column `ma{w}` (`calculate_ma` on `'c'` in
`V1`, `df['c'].rolling(w).mean()` in `V2`). -/
def maCol (w : ℕ) (bars : List Bar) : List (Option ℚ) :=
  rollingMean w (bars.map Bar.c)

/-- The volume moving-average column `va{w}`. -/
def vaCol (w : ℕ) (bars : List Bar) : List (Option ℚ) :=
  rollingMean w (bars.map Bar.v)

/-- One row of the exported daily table, in the column order
`[date, o, h, l, c, v, ma5, ma20, ma60, va5, va20, va60, admf]`.
A cell holds `none` exactly when the source row-loop's
`... if pd.notna(...) else None` takes the `None` branch. -/
structure DailyRow where
  date : ℕ
  o : Option ℚ
  h : Option ℚ
  l : Option ℚ
  c : Option ℚ
  v : Option ℚ
  ma5 : Option ℚ
  ma20 : Option ℚ
  ma60 : Option ℚ
  va5 : Option ℚ
  va20 : Option ℚ
  va60 : Option ℚ
  admf : Option ℚ
  deriving Repr, DecidableEq, Inhabited

/-- The `daily["data"]` row loop of `process_stock`.  The loop body is the
same in both scripts (`V2` merely wraps cells in `float(...)` casts): raw
OHLC rounded to 2 decimals, volumes truncated with `int(...)`, MA cells
rounded to 2 decimals, VA cells truncated, `admf` rounded to 0 decimals;
every `pd.notna` test failing yields an explicit `None` cell.  Raw OHLCV
cells come from complete bars, so only derived cells can be `none`. -/
def daily_data (bars : List Bar) : List DailyRow :=
  (List.range bars.length).map fun i =>
    let b := bars.getD i default
    { date := b.date
      o := some (roundTo 2 b.o)
      h := some (roundTo 2 b.h)
      l := some (roundTo 2 b.l)
      c := some (roundTo 2 b.c)
      v := some ((pyInt b.v : ℚ))
      ma5 := ((maCol 5 bars).getD i none).map (roundTo 2)
      ma20 := ((maCol 20 bars).getD i none).map (roundTo 2)
      ma60 := ((maCol 60 bars).getD i none).map (roundTo 2)
      va5 := ((vaCol 5 bars).getD i none).map fun x => (pyInt x : ℚ)
      va20 := ((vaCol 20 bars).getD i none).map fun x => (pyInt x : ℚ)
      va60 := ((vaCol 60 bars).getD i none).map fun x => (pyInt x : ℚ)
      admf := some (roundTo 0 ((calculate_admf bars).getD i 0)) }

namespace V1

/-- The numeric fields of the snapshot dict built by `process_stock` in
`src/scripts/fetch_data.py` (`symbol`/`exchange` are identity strings
outside the numeric core). -/
structure Snapshot where
  price : ℚ
  volume : ℤ
  ma5 : ℚ
  ma20 : ℚ
  ma60 : ℚ
  va5 : ℤ
  va20 : ℤ
  va60 : ℤ
  conv : Convergence
  va5_20 : ℚ
  va20_60 : ℚ
  vaConverge : ℚ
  admf : ℚ
  admf_1m : Option AdmfStats
  admf_2m : Option AdmfStats
  admf_3m : Option AdmfStats
  admf_4m : Option AdmfStats
  totalDays : ℕ
  deriving Repr, DecidableEq

/-- The pair returned by `process_stock`. -/
structure Result where
  snapshot : Snapshot
  daily : List DailyRow
  deriving Repr, DecidableEq

/-- `process_stock` of `src/scripts/fetch_data.py`, after a successful
fetch: refuse (`None`) when fewer than 60 bars are available, otherwise
compute `admf`, read the latest row's values (`latest.get(..., 0) or 0`;
under the 60-bar guard every MA/VA cell of the last row is present, so the
fallback only models the coercion), and assemble snapshot plus daily
table. -/
def process_stock (bars : List Bar) : Option Result :=
  if bars.length < 60 then none
  else
    let n := bars.length
    let latest := bars.getD (n - 1) default
    let admf := calculate_admf bars
    let ma5 := ((maCol 5 bars).getD (n - 1) none).getD 0
    let ma20 := ((maCol 20 bars).getD (n - 1) none).getD 0
    let ma60 := ((maCol 60 bars).getD (n - 1) none).getD 0
    let va5 := ((vaCol 5 bars).getD (n - 1) none).getD 0
    let va20 := ((vaCol 20 bars).getD (n - 1) none).getD 0
    let va60 := ((vaCol 60 bars).getD (n - 1) none).getD 0
    some
      { snapshot :=
          { price := roundTo 2 latest.c
            volume := pyInt latest.v
            ma5 := roundTo 2 ma5
            ma20 := roundTo 2 ma20
            ma60 := roundTo 2 ma60
            va5 := pyInt va5
            va20 := pyInt va20
            va60 := pyInt va60
            conv := calculate_convergence ma5 ma20 ma60
            va5_20 := roundTo 2 (pct_diff va5 va20)
            va20_60 := roundTo 2 (pct_diff va20 va60)
            vaConverge := roundTo 2 (va_converge va5 va20 va60)
            admf := roundTo 0 (admf.getD (n - 1) 0)
            admf_1m := calculate_admf_oscillation (admf.map some) 22
            admf_2m := calculate_admf_oscillation (admf.map some) 44
            admf_3m := calculate_admf_oscillation (admf.map some) 66
            admf_4m := calculate_admf_oscillation (admf.map some) 88
            totalDays := n }
        daily := daily_data bars }

end V1

namespace V2

/-- The numeric fields of the snapshot dict built by `process_stock` in
`src/vn-stock-scanner/scripts/fetch_data.py` (no `va5/va20/va60`,
`va5_20/va20_60` or `totalDays` fields in this variant). -/
structure Snapshot where
  price : ℚ
  volume : ℤ
  ma5 : ℚ
  ma20 : ℚ
  ma60 : ℚ
  conv : Convergence
  vaConverge : ℚ
  admf : ℚ
  admf_1m : Option AdmfStats
  admf_2m : Option AdmfStats
  admf_3m : Option AdmfStats
  admf_4m : Option AdmfStats
  deriving Repr, DecidableEq

/-- The pair returned by `process_stock`. -/
structure Result where
  snapshot : Snapshot
  daily : List DailyRow
  deriving Repr, DecidableEq

/-- `process_stock` of `src/vn-stock-scanner/scripts/fetch_data.py`, after a
successful fetch (this variant computes every derived column inside
`fetch_stock_data` before the guard; the columns are the shared pipeline
above). -/
def process_stock (bars : List Bar) : Option Result :=
  if bars.length < 60 then none
  else
    let n := bars.length
    let latest := bars.getD (n - 1) default
    let admf := calculate_admf bars
    let ma5 := ((maCol 5 bars).getD (n - 1) none).getD 0
    let ma20 := ((maCol 20 bars).getD (n - 1) none).getD 0
    let ma60 := ((maCol 60 bars).getD (n - 1) none).getD 0
    let va5 := ((vaCol 5 bars).getD (n - 1) none).getD 0
    let va20 := ((vaCol 20 bars).getD (n - 1) none).getD 0
    let va60 := ((vaCol 60 bars).getD (n - 1) none).getD 0
    some
      { snapshot :=
          { price := roundTo 2 latest.c
            volume := pyInt latest.v
            ma5 := roundTo 2 ma5
            ma20 := roundTo 2 ma20
            ma60 := roundTo 2 ma60
            conv := calculate_convergence ma5 ma20 ma60
            vaConverge := roundTo 2 (va_converge va5 va20 va60)
            admf := roundTo 0 (admf.getD (n - 1) 0)
            admf_1m := calculate_admf_oscillation (admf.map some) 22
            admf_2m := calculate_admf_oscillation (admf.map some) 44
            admf_3m := calculate_admf_oscillation (admf.map some) 66
            admf_4m := calculate_admf_oscillation (admf.map some) 88 }
        daily := daily_data bars }

end V2

example : (V1.calculate_convergence 2 1 0).maConverge = 100 := by
  norm_num [V1.calculate_convergence, V1.max_deviation, roundTo, pyRoundInt]
example : roundTo 2 ((specPairSpread 2 1 + specPairSpread 1 0 + specPairSpread 2 0) / 3)
    = 15556/100 := by norm_num [specPairSpread, roundTo, pyRoundInt]
example : V1.va_converge 2 1 0 = 200/3 := by norm_num [V1.va_converge, pct_diff]
example : V2.va_converge 2 1 0 = 400/3 := by norm_num [V2.va_converge, pct_diff]
example : (V2.calculate_convergence 2 1 0).maConverge = 15556/100 := by
  norm_num [V2.calculate_convergence, pct_diff, roundTo, pyRoundInt]

/-! ## Helper lemmas -/

theorem getD_range_map {α : Type} (f : ℕ → α) {n i : ℕ} (d : α) (hi : i < n) :
    ((List.range n).map f).getD i d = f i := by
  rw [List.getD_eq_getElem _ _ (by simpa using hi)]
  simp

theorem shift1_length (xs : List ℚ) : (shift1 xs).length = xs.length := by
  cases xs <;> simp [shift1]

theorem rmaAux_length (α p : ℚ) (xs : List ℚ) : (rmaAux α p xs).length = xs.length := by
  induction xs generalizing p with
  | nil => rfl
  | cons x rest ih => simp [rmaAux, ih]

theorem rma_length (xs : List ℚ) (len : ℕ) : (rma xs len).length = xs.length := by
  cases xs with
  | nil => rfl
  | cons x rest => simp [rma, rmaAux_length]

theorem rmaAux_getD_succ (α p : ℚ) (xs : List ℚ) (i : ℕ) (h : i + 1 < xs.length) :
    (rmaAux α p xs).getD (i + 1) 0
      = (1 - α) * (rmaAux α p xs).getD i 0 + α * xs.getD (i + 1) 0 := by
  induction xs generalizing p i with
  | nil => simp at h
  | cons x rest ih =>
    cases i with
    | zero =>
      cases rest with
      | nil => simp at h
      | cons z zs => simp [rmaAux]
    | succ j =>
      have h' : j + 1 < rest.length := by simpa using h
      simpa [rmaAux] using ih ((1 - α) * p + α * x) j h'

theorem rma_getD_succ (xs : List ℚ) (len : ℕ) (i : ℕ) (h : i + 1 < xs.length) :
    (rma xs len).getD (i + 1) 0
      = (1 - 1 / (len : ℚ)) * (rma xs len).getD i 0 + (1 / (len : ℚ)) * xs.getD (i + 1) 0 := by
  cases xs with
  | nil => simp at h
  | cons x rest =>
    cases i with
    | zero =>
      cases rest with
      | nil => simp at h
      | cons z zs => simp [rma, rmaAux]
    | succ j =>
      have h' : j + 1 < rest.length := by simpa using h
      simpa [rma] using rmaAux_getD_succ (1 / (len : ℚ)) x rest j h'

theorem pct_diff_eq_specPairSpread (a b : ℚ) : pct_diff a b = specPairSpread a b := by
  unfold pct_diff specPairSpread
  by_cases hab : a = 0 ∧ b = 0
  · simp [hab]
  · by_cases havg : (a + b) / 2 = 0
    · simp [hab, havg]
    · simp [hab, havg]

/-! ## Claim theorems -/

/-- **C3**: for every numeric sequence `x` of length `n ≥ 1` and positive
integer `length`, `rma(x, length)` has length `n`, starts at `x[0]`, and
satisfies `y[i] = y[i-1] + (x[i] - y[i-1]) / length` for `0 < i < n`. -/
theorem rma_recurrence (xs : List ℚ) (len : ℕ) (hlen : 0 < len) (hne : xs ≠ []) :
    (rma xs len).length = xs.length ∧
    (rma xs len).getD 0 0 = xs.getD 0 0 ∧
    ∀ i : ℕ, 0 < i → i < xs.length →
      (rma xs len).getD i 0
        = (rma xs len).getD (i - 1) 0
          + (xs.getD i 0 - (rma xs len).getD (i - 1) 0) / (len : ℚ) := by
  refine ⟨rma_length xs len, ?_, ?_⟩
  · cases xs with
    | nil => exact absurd rfl hne
    | cons x rest => simp [rma]
  · intro i hi hilt
    obtain ⟨j, rfl⟩ := Nat.exists_eq_succ_of_ne_zero hi.ne'
    have h := rma_getD_succ xs len j hilt
    have hj : j + 1 - 1 = j := by omega
    rw [hj, h]
    ring

/-- Witness for **C3** at `x = [10, 20]`, `length = 2`. -/
theorem rma_recurrence_witness :
    (rma [10, 20] 2).length = ([10, 20] : List ℚ).length ∧
    (rma [10, 20] 2).getD 0 0 = ([10, 20] : List ℚ).getD 0 0 ∧
    ∀ i : ℕ, 0 < i → i < ([10, 20] : List ℚ).length →
      (rma [10, 20] 2).getD i 0
        = (rma [10, 20] 2).getD (i - 1) 0
          + (([10, 20] : List ℚ).getD i 0 - (rma [10, 20] 2).getD (i - 1) 0) / ((2 : ℕ) : ℚ) :=
  rma_recurrence [10, 20] 2 (by norm_num) (by simp)

/-- **C4**: with fewer than 60 fetched bars, neither script's `process_stock`
emits any record — the result is `none`, and no fragmentary snapshot or
daily series is built. -/
theorem process_stock_insufficient (bars : List Bar) (h : bars.length < 60) :
    V1.process_stock bars = none ∧ V2.process_stock bars = none := by
  constructor <;> simp [V1.process_stock, V2.process_stock, h]

/-- Witness for **C4** at the empty bar series. -/
theorem process_stock_insufficient_witness :
    V1.process_stock [] = none ∧ V2.process_stock [] = none :=
  process_stock_insufficient [] (by simp)

/-- **C10**: the pairwise spread helper is total; whenever `a + b = 0`
(including `a = -b ≠ 0`, where the spec's formula would divide by zero) it
returns `0` without evaluating the division. -/
theorem pct_diff_total_zero (a b : ℚ) (h : a + b = 0) : pct_diff a b = 0 := by
  unfold pct_diff
  by_cases hab : a = 0 ∧ b = 0
  · simp [hab]
  · simp [hab, h]

/-- Witness for **C10** at `a = 1`, `b = -1`. -/
theorem pct_diff_total_zero_witness : pct_diff 1 (-1) = 0 :=
  pct_diff_total_zero 1 (-1) (by norm_num)

/-- **C1** (counterexample): at `(ma5, ma20, ma60) = (2, 1, 0)` the `V1`
script's `maConverge` is `100` (max deviation from the three-way mean),
while the arithmetic mean of the three pairwise spreads is `155.56` —
whether taken over the emitted (rounded) spread fields or over the raw
spec-formula spreads. -/
theorem maConverge_mean_counterexample :
    (V1.calculate_convergence 2 1 0).maConverge
        ≠ ((V1.calculate_convergence 2 1 0).ma5_20 + (V1.calculate_convergence 2 1 0).ma20_60
            + (V1.calculate_convergence 2 1 0).ma5_60) / 3 ∧
    (V1.calculate_convergence 2 1 0).maConverge
        ≠ roundTo 2 ((specPairSpread 2 1 + specPairSpread 1 0 + specPairSpread 2 0) / 3) := by
  norm_num [V1.calculate_convergence, V1.max_deviation, pct_diff, specPairSpread, roundTo,
    pyRoundInt]

/-- **C1** (amended): `maConverge` of the `V2` script
(`src/vn-stock-scanner/scripts/fetch_data.py`) is the rounded arithmetic
mean of the three pairwise spreads, exactly as the claim states; in the `V1`
script (`src/scripts/fetch_data.py`) `maConverge` is instead the rounded
maximum percentage deviation of the three values from their three-way
mean. -/
theorem maConverge_characterization (a b c : ℚ) :
    (V2.calculate_convergence a b c).maConverge
        = roundTo 2 ((specPairSpread a b + specPairSpread b c + specPairSpread a c) / 3) ∧
    (V1.calculate_convergence a b c).maConverge = roundTo 2 (V1.max_deviation a b c) := by
  constructor
  · simp [V2.calculate_convergence, pct_diff_eq_specPairSpread]
  · rfl

/-- **C2** (counterexample): at `(va5, va20, va60) = (2, 1, 0)` the mean of
the three pairwise spreads is `1400/9 ≈ 155.56`, but the `V1` script's
`va_converge` is `200/3 ≈ 66.67` (max of the three spreads divided by 3) and
the `V2` script's is `400/3 ≈ 133.33` (mean of only two spreads). -/
theorem vaConverge_mean_counterexample :
    V1.va_converge 2 1 0 ≠ (specPairSpread 2 1 + specPairSpread 1 0 + specPairSpread 2 0) / 3 ∧
    V2.va_converge 2 1 0 ≠ (specPairSpread 2 1 + specPairSpread 1 0 + specPairSpread 2 0) / 3 := by
  norm_num [V1.va_converge, V2.va_converge, pct_diff, specPairSpread]

/-- **C2** (amended): the `V1` script's `vaConverge` aggregate is the
*maximum* of the three pairwise spreads divided by 3, and the `V2` script's
is the arithmetic mean of only the two spreads `(va5,va20)` and
`(va20,va60)`; neither is the mean of all three pairwise spreads. -/
theorem va_converge_characterization (a b c : ℚ) :
    V1.va_converge a b c
        = max (specPairSpread a b) (max (specPairSpread b c) (specPairSpread a c)) / 3 ∧
    V2.va_converge a b c = (specPairSpread a b + specPairSpread b c) / 2 := by
  simp [V1.va_converge, V2.va_converge, pct_diff_eq_specPairSpread]

/-- **C5** (counterexample): on a one-bar series with `high = 12`, `low = 9`,
the True-Range column's first entry is the defined value `3 = high - low`,
not a missing value — the pandas row-maximum skips the two missing
gap terms instead of propagating them. -/
theorem true_range_first_counterexample :
    (calculate_true_range [⟨0, 10, 12, 9, 11, 100⟩]).getD 0 none = some 3 ∧
    (calculate_true_range [⟨0, 10, 12, 9, 11, 100⟩]).getD 0 none ≠ none := by
  have h : (calculate_true_range [⟨0, 10, 12, 9, 11, 100⟩]).getD 0 none = some 3 := by
    norm_num [calculate_true_range, shift1, trBar, skipnaMax2]
  exact ⟨h, by rw [h]; exact Option.some_ne_none 3⟩

/-- **C5** (amended): for every nonempty bar series, `TR[0]` is the defined
value `high[0] - low[0]` (the intrabar range; the two terms involving the
missing prior close are skipped by the row maximum), never a missing
value. -/
theorem true_range_first_eq (b : Bar) (bars : List Bar) :
    (calculate_true_range (b :: bars)).getD 0 none = some (b.h - b.l) := by
  simp [calculate_true_range, shift1, trBar, skipnaMax2]

theorem calculate_true_range_length (bars : List Bar) :
    (calculate_true_range bars).length = bars.length := by
  simp [calculate_true_range, shift1_length]

theorem diffCol_length (xs : List ℚ) : (diffCol xs).length = xs.length := by
  simp [diffCol, shift1_length]

theorem close_change_length (bars : List Bar) :
    (close_change bars).length = bars.length := by
  simp [close_change, diffCol_length]

theorem ad_ratio_length (bars : List Bar) : (ad_ratio bars).length = bars.length := by
  simp [ad_ratio, fillna0, replaceZeroNan, close_change_length, calculate_true_range_length]

theorem ad_ratio_getD (bars : List Bar) (i : ℕ) (hi : i < bars.length) :
    (ad_ratio bars).getD i 0
      = (optDiv ((close_change bars).getD i none)
          (((calculate_true_range bars).getD i none).bind
            fun t => if t = 0 then none else some t)).getD 0 := by
  have hcc : i < (close_change bars).length := by rw [close_change_length]; exact hi
  have hctr : i < (calculate_true_range bars).length := by
    rw [calculate_true_range_length]; exact hi
  have har : i < (ad_ratio bars).length := by rw [ad_ratio_length]; exact hi
  rw [List.getD_eq_getElem _ _ har, List.getD_eq_getElem _ _ hcc,
    List.getD_eq_getElem _ _ hctr]
  simp only [ad_ratio, fillna0, replaceZeroNan, List.getElem_map, List.getElem_zipWith]

/-- **C6**: `ad_ratio[i]` equals `close_change[i] / TR[i]` whenever both are
defined and `TR[i] ≠ 0`, and equals `0` whenever `TR[i] = 0` or either of
`TR[i]`, `close_change[i]` is missing; the zero fallback is part of the
(total) column definition, so no division error can occur. -/
theorem ad_ratio_spec (bars : List Bar) (i : ℕ) (hi : i < bars.length) :
    (∀ d t, (close_change bars).getD i none = some d →
        (calculate_true_range bars).getD i none = some t → t ≠ 0 →
        (ad_ratio bars).getD i 0 = d / t) ∧
    (((calculate_true_range bars).getD i none = some 0 ∨
        (calculate_true_range bars).getD i none = none ∨
        (close_change bars).getD i none = none) →
      (ad_ratio bars).getD i 0 = 0) := by
  have key := ad_ratio_getD bars i hi
  constructor
  · intro d t hd ht htne
    rw [key, hd, ht]
    simp [optDiv, htne]
  · rintro (ht | ht | hd)
    · rw [key, ht]
      cases (close_change bars).getD i none <;> simp [optDiv]
    · rw [key, ht]
      cases (close_change bars).getD i none <;> simp [optDiv]
    · rw [key, hd]
      cases ((calculate_true_range bars).getD i none) <;> simp [optDiv]

/-- Witness for **C6**: on a concrete three-bar series the third
`ad_ratio` entry is `(14-11) / TR = 3/5`. -/
theorem ad_ratio_spec_witness :
    (ad_ratio [(⟨0, 10, 12, 9, 11, 100⟩ : Bar), ⟨1, 11, 11, 11, 11, 50⟩,
      ⟨2, 11, 15, 10, 14, 80⟩]).getD 2 0 = 3 / 5 :=
  (ad_ratio_spec [⟨0, 10, 12, 9, 11, 100⟩, ⟨1, 11, 11, 11, 11, 50⟩,
      ⟨2, 11, 15, 10, 14, 80⟩] 2 (by norm_num)).1 3 5
    (by norm_num [close_change, diffCol, shift1])
    (by norm_num [calculate_true_range, trBar, skipnaMax2, shift1])
    (by norm_num)

/-- **C7**: for each lookback horizon (all call sites use `period_days ≥ 1`),
the oscillation statistics are absent — `none`, not zero-valued and not an
error — whenever the trailing window retains fewer than `period_days / 2`
entries after dropping missing ones, or its maximum absolute value is
zero. -/
theorem admf_oscillation_absent (admf : List (Option ℚ)) (period_days : ℕ)
    (hp : 1 ≤ period_days)
    (h : 2 * ((admf.drop (admf.length - period_days)).filterMap id).length < period_days ∨
      absMax ((admf.drop (admf.length - period_days)).filterMap id) = 0) :
    calculate_admf_oscillation admf period_days = none := by
  unfold calculate_admf_oscillation
  rcases h with h | h
  · simp [h]
  · by_cases hl :
      2 * ((admf.drop (admf.length - period_days)).filterMap id).length < period_days
    · simp [hl]
    · simp [hl, h]

/-- Witness for **C7**: the empty oscillator column at horizon 22. -/
theorem admf_oscillation_absent_witness : calculate_admf_oscillation [] 22 = none :=
  admf_oscillation_absent [] 22 (by norm_num) (Or.inl (by simp))

theorem absMax_nonneg (l : List ℚ) : 0 ≤ absMax l := by
  induction l with
  | nil => exact le_refl 0
  | cons x xs ih => exact le_trans ih (le_max_right _ _)

theorem absMax_map_div (l : List ℚ) (m : ℚ) (hm : 0 ≤ m) :
    absMax (l.map fun x => x / m) = absMax l / m := by
  induction l with
  | nil => simp [absMax]
  | cons x xs ih =>
    show max |x / m| (absMax (xs.map fun x => x / m)) = max |x| (absMax xs) / m
    rw [ih, abs_div, abs_of_nonneg hm, max_div_div_right hm]

/-- **C8**: whenever the oscillation statistics are produced (not absent),
the `max_distance` field is exactly `100` — the window is normalized by its
own maximum absolute value. -/
theorem admf_oscillation_max_distance (admf : List (Option ℚ)) (period_days : ℕ)
    (hp : 1 ≤ period_days) (s : AdmfStats)
    (h : calculate_admf_oscillation admf period_days = some s) :
    s.max_distance = 100 := by
  unfold calculate_admf_oscillation at h
  by_cases hl :
      2 * ((admf.drop (admf.length - period_days)).filterMap id).length < period_days
  · simp [hl] at h
  · rw [if_neg hl] at h
    simp only at h
    by_cases hm : absMax ((admf.drop (admf.length - period_days)).filterMap id) = 0
    · rw [if_pos hm] at h
      exact absurd h (by simp)
    · rw [if_neg hm] at h
      have hs := Option.some_injective _ h
      have : s.max_distance
          = roundTo 2 (absMax (((admf.drop (admf.length - period_days)).filterMap id).map
              fun x => x / absMax ((admf.drop (admf.length - period_days)).filterMap id)) * 100) := by
        rw [← hs]
      rw [this, absMax_map_div _ _ (absMax_nonneg _), div_self hm]
      norm_num [roundTo, pyRoundInt]

/-- Witness for **C8**: a concrete four-entry window at horizon 4 produces
statistics whose `max_distance` is `100`. -/
theorem admf_oscillation_max_distance_witness :
    (⟨63 / 2, 3, 50, 100, 25⟩ : AdmfStats).max_distance = 100 :=
  admf_oscillation_max_distance [some 1, some (-1), some 2, some 0] 4 (by norm_num)
    ⟨63 / 2, 3, 50, 100, 25⟩
    (by norm_num [calculate_admf_oscillation, List.filterMap_cons, List.filter_cons, absMax,
      zeroCrosses, npSign, roundTo, pyRoundInt, Int.fract, abs])

theorem rollingMean_getD_lt (w : ℕ) (xs : List ℚ) (i : ℕ) (hi : i < xs.length)
    (hw : i + 1 < w) : (rollingMean w xs).getD i none = none := by
  unfold rollingMean
  rw [getD_range_map _ none hi]
  simp [Nat.not_le.mpr hw]

/-- **C9**: on any sufficiently long bar series, both scripts emit a daily
table whose cells are the derived columns mapped through the row formatter —
a missing column value yields an explicit `none` cell (never `0`, never an
omitted field) — and in particular every row with index below 59 has a
`none` in the `ma60` cell. -/
theorem daily_missing_null (bars : List Bar) (h60 : 60 ≤ bars.length) :
    ∃ out1 out2, V1.process_stock bars = some out1 ∧ V2.process_stock bars = some out2 ∧
      out1.daily = daily_data bars ∧ out2.daily = daily_data bars ∧
      (∀ i, i < bars.length →
        ((daily_data bars).getD i default).ma5 = ((maCol 5 bars).getD i none).map (roundTo 2) ∧
        ((daily_data bars).getD i default).ma20 = ((maCol 20 bars).getD i none).map (roundTo 2) ∧
        ((daily_data bars).getD i default).ma60 = ((maCol 60 bars).getD i none).map (roundTo 2) ∧
        ((daily_data bars).getD i default).va5
          = ((vaCol 5 bars).getD i none).map (fun x => (pyInt x : ℚ)) ∧
        ((daily_data bars).getD i default).va20
          = ((vaCol 20 bars).getD i none).map (fun x => (pyInt x : ℚ)) ∧
        ((daily_data bars).getD i default).va60
          = ((vaCol 60 bars).getD i none).map (fun x => (pyInt x : ℚ))) ∧
      ∀ i, i < 59 → ((daily_data bars).getD i default).ma60 = none := by
  have hlt : ¬ bars.length < 60 := by omega
  obtain ⟨out1, h1⟩ : ∃ o, V1.process_stock bars = some o := by
    unfold V1.process_stock
    rw [if_neg hlt]
    exact ⟨_, rfl⟩
  obtain ⟨out2, h2⟩ : ∃ o, V2.process_stock bars = some o := by
    unfold V2.process_stock
    rw [if_neg hlt]
    exact ⟨_, rfl⟩
  have hd1 : out1.daily = daily_data bars := by
    unfold V1.process_stock at h1
    rw [if_neg hlt] at h1
    rw [← Option.some_injective _ h1]
  have hd2 : out2.daily = daily_data bars := by
    unfold V2.process_stock at h2
    rw [if_neg hlt] at h2
    rw [← Option.some_injective _ h2]
  refine ⟨out1, out2, h1, h2, hd1, hd2, ?_, ?_⟩
  · intro i hi
    unfold daily_data
    rw [getD_range_map _ default hi]
    exact ⟨rfl, rfl, rfl, rfl, rfl, rfl⟩
  · intro i hi
    have hib : i < bars.length := by omega
    unfold daily_data
    rw [getD_range_map _ default hib]
    show ((maCol 60 bars).getD i none).map (roundTo 2) = none
    rw [maCol, rollingMean_getD_lt 60 _ i (by simpa using hib) (by omega)]
    rfl

/-- Witness for **C9**: a constant 60-bar series. -/
theorem daily_missing_null_witness :
    ∃ out1 out2, V1.process_stock (List.replicate 60 ⟨0, 1, 1, 1, 1, 1⟩) = some out1 ∧
      V2.process_stock (List.replicate 60 ⟨0, 1, 1, 1, 1, 1⟩) = some out2 ∧
      out1.daily = daily_data (List.replicate 60 ⟨0, 1, 1, 1, 1, 1⟩) ∧
      out2.daily = daily_data (List.replicate 60 ⟨0, 1, 1, 1, 1, 1⟩) ∧
      (∀ i, i < (List.replicate 60 (⟨0, 1, 1, 1, 1, 1⟩ : Bar)).length →
        ((daily_data (List.replicate 60 ⟨0, 1, 1, 1, 1, 1⟩)).getD i default).ma5
          = ((maCol 5 (List.replicate 60 ⟨0, 1, 1, 1, 1, 1⟩)).getD i none).map (roundTo 2) ∧
        ((daily_data (List.replicate 60 ⟨0, 1, 1, 1, 1, 1⟩)).getD i default).ma20
          = ((maCol 20 (List.replicate 60 ⟨0, 1, 1, 1, 1, 1⟩)).getD i none).map (roundTo 2) ∧
        ((daily_data (List.replicate 60 ⟨0, 1, 1, 1, 1, 1⟩)).getD i default).ma60
          = ((maCol 60 (List.replicate 60 ⟨0, 1, 1, 1, 1, 1⟩)).getD i none).map (roundTo 2) ∧
        ((daily_data (List.replicate 60 ⟨0, 1, 1, 1, 1, 1⟩)).getD i default).va5
          = ((vaCol 5 (List.replicate 60 ⟨0, 1, 1, 1, 1, 1⟩)).getD i none).map
              (fun x => (pyInt x : ℚ)) ∧
        ((daily_data (List.replicate 60 ⟨0, 1, 1, 1, 1, 1⟩)).getD i default).va20
          = ((vaCol 20 (List.replicate 60 ⟨0, 1, 1, 1, 1, 1⟩)).getD i none).map
              (fun x => (pyInt x : ℚ)) ∧
        ((daily_data (List.replicate 60 ⟨0, 1, 1, 1, 1, 1⟩)).getD i default).va60
          = ((vaCol 60 (List.replicate 60 ⟨0, 1, 1, 1, 1, 1⟩)).getD i none).map
              (fun x => (pyInt x : ℚ))) ∧
      ∀ i, i < 59 →
        ((daily_data (List.replicate 60 (⟨0, 1, 1, 1, 1, 1⟩ : Bar))).getD i default).ma60
          = none :=
  daily_missing_null (List.replicate 60 ⟨0, 1, 1, 1, 1, 1⟩) (by simp)
